import Mathlib

/-!
Shallow embedding of the asynchronous APNS client of `pyapns_client`
(`src/pyapns_client/async_client.py`).  The client's mutable fields become an
explicit `ClientState`; each Python method becomes a Lean function returning
its result together with the updated state.  External collaborators — the
HTTP/2 transport, JWT signing, the file system — are modelled as parameters
(the transport as a map from attempt index to the transport's result, signing
as the signed claim set itself, file reading as a `String → String` argument).
Machine behaviour that the claims quantify over (response status codes,
bodies, reason strings, timestamps) is carried verbatim in the model.
-/

namespace PyapnsClient

/-- Exception classification data for one reason-keyed exception class.
Modelled from the spec: the repository's `exceptions` module is not under
`src/` (only `async_client.py` is), so §4.4/§7 of the spec supply the shape:
classes are partitioned into server-side (retryable, subclasses of
`APNSServerException`) and client-side ones, and the unregistered-device
class (`UnregisteredException`, client-side) additionally carries a
timestamp. -/
structure ExcClass where
  isServer : Bool
  isUnregistered : Bool
deriving DecidableEq, Repr

/-- Reason-string table of the `exceptions` module.  Modelled from the spec:
§4.4 names the sample vocabulary ("BadDeviceToken", "Unregistered",
"PayloadTooLarge", "InternalServerError", "ServiceUnavailable", …) and the
partition — server-side classes are internal errors, shutting down, service
unavailable, too many provider tokens; all others, including the
unregistered-device class, are client-side. -/
def exceptionsTable : List (String × ExcClass) :=
  [ ("BadDeviceToken", { isServer := false, isUnregistered := false }),
    ("PayloadTooLarge", { isServer := false, isUnregistered := false }),
    ("Unregistered", { isServer := false, isUnregistered := true }),
    ("InternalServerError", { isServer := true, isUnregistered := false }),
    ("ServiceUnavailable", { isServer := true, isUnregistered := false }),
    ("Shutdown", { isServer := true, isUnregistered := false }),
    ("TooManyProviderTokenUpdates", { isServer := true, isUnregistered := false }) ]

/-- Model of `AsyncAPNSClient._get_exception_class` (async_client.py
lines 215-221): the reflective `getattr` of the class named
`reason + "Exception"` becomes a table lookup; `none` models the
`AttributeError` branch that raises `NotImplementedError`. -/
def getExceptionClass (reason : String) : Option ExcClass :=
  exceptionsTable.lookup reason

/-- Signed authentication token.  JWT signing is an external capability
("sign a claim set and return an opaque token string"), so the token is
modelled as the claim set that `_auth_token` signs: `iss = team_id`,
`iat = the minting time` (async_client.py line 158). -/
structure Token where
  iss : Option String
  iat : Nat
deriving DecidableEq, Repr

/-- Mutable fields of an `AsyncAPNSClient` instance (async_client.py
lines 58-73).  Connections are opaque transport handles; creation of a fresh
`httpx.AsyncClient` object is modelled by allocating a fresh identifier from
the counter `next_conn_id` (not a field of the Python object — it is the
allocator that gives distinct connection objects distinct identities). -/
structure ClientState where
  team_id : Option String
  auth_token_time : Option Nat
  auth_token_storage : Option Token
  client_storage : Option Nat
  next_conn_id : Nat
deriving DecidableEq, Repr

/-- Model of `AUTH_TOKEN_LIFETIME = 45 * 60` (async_client.py line 21). -/
def AUTH_TOKEN_LIFETIME : Nat := 45 * 60

/-- Model of the property `_is_auth_token_expired` (async_client.py
lines 193-197): true when no token has been minted, or when
`now >= auth_token_time + AUTH_TOKEN_LIFETIME`. -/
def isAuthTokenExpired (now : Nat) (s : ClientState) : Bool :=
  match s.auth_token_time with
  | none => true
  | some t => decide (t + AUTH_TOKEN_LIFETIME ≤ now)

/-- Minting branch of the `_auth_token` property (async_client.py
lines 156-166): record the current time, sign the claim set
`\x7b iss, iat \x7d`, and cache both. -/
def mintToken (now : Nat) (s : ClientState) : Token × ClientState :=
  ({ iss := s.team_id, iat := now },
   { s with auth_token_time := some now,
            auth_token_storage := some { iss := s.team_id, iat := now } })

/-- Model of the `_auth_token` property (async_client.py lines 153-168):
mint a new token when the cache is empty or expired, otherwise return the
cached token with the state untouched. -/
def authToken (now : Nat) (s : ClientState) : Token × ClientState :=
  match s.auth_token_storage with
  | none => mintToken now s
  | some tok => if isAuthTokenExpired now s then mintToken now s else (tok, s)

/-- Model of the `_client` property (async_client.py lines 170-191):
lazily create the connection, memoize it, and return it.  A fresh
`httpx.AsyncClient` is a fresh identifier from the allocator. -/
def getClient (s : ClientState) : Nat × ClientState :=
  match s.client_storage with
  | some c => (c, s)
  | none =>
    (s.next_conn_id,
     { s with client_storage := some s.next_conn_id,
              next_conn_id := s.next_conn_id + 1 })

/-- Model of `_reset_client` (async_client.py lines 204-208): close the
stored connection if any (the `aclose` call is external) and discard the
reference. -/
def resetClient (s : ClientState) : ClientState :=
  { s with client_storage := none }

/-- Model of `_reset_auth_token` (async_client.py lines 199-202). -/
def resetAuthToken (s : ClientState) : ClientState :=
  { s with auth_token_time := none, auth_token_storage := none }

/-- Model of `close` (async_client.py lines 114-117): reset the client,
then reset the auth token. -/
def close (s : ClientState) : ClientState :=
  resetAuthToken (resetClient s)

/-- Parsed shape of a response body as `_push` consumes it:
`invalidJson` models a body on which `json.loads` fails; `json r t` models a
parsed JSON object whose `"reason"` key holds `r` (none when absent) and
whose `"timestamp"` key holds `t` (none when absent). -/
inductive Body where
  | invalidJson : Body
  | json : Option String → Option Int → Body
deriving DecidableEq, Repr

/-- Result of one transport round trip: `requestError` models
`httpx.RequestError` (DNS, TCP, TLS, timeout); `response` carries the status
code, the `apns-id` header and the body. -/
inductive TransportResult where
  | requestError : TransportResult
  | response : Nat → Option String → Body → TransportResult
deriving DecidableEq, Repr

/-- Typed exceptions of the `exceptions` module as `_push` raises them.
`connection` models `APNSConnectionException` (no response data); `response`
models a reason-keyed `APNSException` subclass built with
`status_code`, `apns_id` and, for the unregistered class only, `timestamp`
(async_client.py lines 138-143). -/
inductive APNSExc where
  | connection : APNSExc
  | response : ExcClass → String → Nat → Option String → Option Int → APNSExc
deriving DecidableEq, Repr

/-- Retry classification of a raised exception.  Modelled from the spec for
the missing `exceptions` module: only the server-side reason classes are
subclasses of `APNSServerException`; `APNSConnectionException` is an
`APNSException` that is not server-side (§7: connectivity failures are
"raised immediately, not retried"). -/
def APNSExc.isServer : APNSExc → Bool
  | .connection => false
  | .response cls _ _ _ _ => cls.isServer

/-- Result of one `_push` call: success, a raised typed `APNSException`, or
an uncaught Python error (named), which the `push` loop does not catch. -/
inductive Outcome where
  | success : Outcome
  | exc : APNSExc → Outcome
  | pyErr : String → Outcome
deriving DecidableEq, Repr

/-- Classification part of `_push` (async_client.py lines 119-143), a pure
function of the transport result: `httpx.RequestError` becomes
`APNSConnectionException`; a 200 response is success; otherwise the body is
parsed (`json.loads` failure and missing keys surface as uncaught Python
errors), the reason is classified, and the typed exception is built with the
status code, the `apns-id` header and — for the unregistered class — the
body's timestamp. -/
def outcomeOf : TransportResult → Outcome
  | .requestError => .exc .connection
  | .response code apnsId body =>
    if code = 200 then .success
    else
      match body with
      | .invalidJson => .pyErr "JSONDecodeError"
      | .json none _ => .pyErr "KeyError"
      | .json (some reason) ts =>
        match getExceptionClass reason with
        | none => .pyErr "NotImplementedError"
        | some cls =>
          if cls.isUnregistered then
            match ts with
            | none => .pyErr "KeyError"
            | some t => .exc (.response cls reason code apnsId (some t))
          else .exc (.response cls reason code apnsId none)

/-- Exception that `_push` raises on a given transport result, if any. -/
def respExcOf (r : TransportResult) : Option APNSExc :=
  match outcomeOf r with
  | .exc e => some e
  | _ => none

/-- Transport result whose `_push` outcome is a server-side typed
exception (the retryable case of the `push` loop). -/
def IsServerFailure (r : TransportResult) : Bool :=
  match respExcOf r with
  | some e => e.isServer
  | none => false

/-- Observable result of a whole `push` call: normal return, a raised typed
`APNSException`, or an uncaught Python error escaping the loop. -/
inductive PushOutcome where
  | ok : PushOutcome
  | raised : APNSExc → PushOutcome
  | error : String → PushOutcome
deriving DecidableEq, Repr

/-- Trace of one `push` call: its outcome, the number of attempts made, the
connection used by each attempt (in order), and the final client state. -/
structure PushResult where
  outcome : PushOutcome
  attempts : Nat
  conns : List Nat
  final : ClientState
deriving DecidableEq, Repr

/-- Retry loop of `push` (async_client.py lines 89-110), unrolled over the
remaining iterations of `for _ in range(3)`.  Each iteration performs one
`_push`: the send acquires the connection from the `_client` property (lazy
creation) and the transport's result for attempt `i` is `env i`.  A success
breaks with no exception; an `APNSServerException` stores the exception,
resets the client and continues; any other `APNSException` breaks and is
raised; an uncaught Python error (e.g. `NotImplementedError`) propagates out
of the loop at once.  When the iterations are exhausted the stored exception
is raised. -/
def pushLoop (env : Nat → TransportResult) :
    Nat → Nat → ClientState → Option APNSExc → List Nat → PushResult
  | 0, i, s, last, cs =>
    { outcome := match last with | none => .ok | some e => .raised e,
      attempts := i, conns := cs, final := s }
  | fuel + 1, i, s, _last, cs =>
    match outcomeOf (env i) with
    | .success =>
      { outcome := .ok, attempts := i + 1,
        conns := cs ++ [(getClient s).1], final := (getClient s).2 }
    | .pyErr n =>
      { outcome := .error n, attempts := i + 1,
        conns := cs ++ [(getClient s).1], final := (getClient s).2 }
    | .exc e =>
      if e.isServer then
        pushLoop env fuel (i + 1) (resetClient (getClient s).2) (some e)
          (cs ++ [(getClient s).1])
      else
        { outcome := .raised e, attempts := i + 1,
          conns := cs ++ [(getClient s).1], final := (getClient s).2 }

/-- Model of `push` (async_client.py lines 81-112): run the retry loop with
an attempt budget of 3 starting from the given state.  `last` is the `exc`
variable of the loop, initially `None`. -/
def push (env : Nat → TransportResult) (s : ClientState) : PushResult :=
  pushLoop env 3 0 s none []

/-- Python truthiness of an optional string argument: `None` and the empty
string are falsy. -/
def truthy : Option String → Bool
  | none => false
  | some s => !(s == "")

/-- Model of `_get_auth_key` as `__init__` uses it (async_client.py
line 57): read the key file when `auth_key_path` is truthy, else `None`.
File reading is external, passed in as `readFile`. -/
def mkAuthKey (readFile : String → String) : Option String → Option String
  | none => none
  | some p => if p == "" then none else some (readFile p)

/-- Auth-mode selection of `__init__` (async_client.py lines 64-69):
`"jwt"` when the read auth key, the key id and the team id are all truthy,
else `"cert"` when both client-cert fields are truthy, else the
`ValueError`. -/
def mkAuthType (auth_key auth_key_id team_id client_cert_path
    client_cert_passphrase : Option String) : Except String String :=
  if truthy auth_key && truthy auth_key_id && truthy team_id then
    Except.ok "jwt"
  else if truthy client_cert_path && truthy client_cert_passphrase then
    Except.ok "cert"
  else
    Except.error "Either the auth key or the client cert must be provided."

/-- Construction outcome of `AsyncAPNSClient.__init__` restricted to its
auth-validation logic (async_client.py lines 24-73): the selected auth type,
or the configuration `ValueError`. -/
def clientInit (readFile : String → String)
    (auth_key_path auth_key_id team_id client_cert_path
     client_cert_passphrase : Option String) : Except String String :=
  mkAuthType (mkAuthKey readFile auth_key_path) auth_key_id team_id
    client_cert_path client_cert_passphrase

/-- Well-formedness of the token cache: the value and its issue time are
cached together, and the cached claim set records the cached issue time. -/
def TokenWF (s : ClientState) : Prop :=
  (s.auth_token_storage.isSome ↔ s.auth_token_time.isSome) ∧
  ∀ tok t, s.auth_token_storage = some tok → s.auth_token_time = some t →
    tok.iat = t

/-- Well-formedness of the connection allocator: any stored connection
identifier was allocated below the counter. -/
def ConnWF (s : ClientState) : Prop :=
  ∀ c, s.client_storage = some c → c < s.next_conn_id

/-- Response whose interaction with `_push` stays inside the response
contract of the spec (§6): an actual HTTP response whose non-200 body is
JSON carrying a reason with a known classification and, when that
classification is the unregistered class, a timestamp. -/
def WellFormedResp (r : TransportResult) : Prop :=
  ∃ code apnsId body, r = TransportResult.response code apnsId body ∧
    (code ≠ 200 → ∃ reason ts cls, body = Body.json (some reason) ts ∧
      getExceptionClass reason = some cls ∧
      (cls.isUnregistered = true → ∃ t, ts = some t))

/-- Fresh client state used by witnesses: no cached token, no connection. -/
def state0 : ClientState :=
  { team_id := some "TEAMID", auth_token_time := none,
    auth_token_storage := none, client_storage := none, next_conn_id := 0 }

/-- Client state with a live connection, used by witnesses. -/
def state1 : ClientState :=
  { team_id := some "TEAMID", auth_token_time := none,
    auth_token_storage := none, client_storage := some 0, next_conn_id := 1 }

/-- Transport environment answering every attempt with a 503
"ServiceUnavailable" response. -/
def env503 : Nat → TransportResult := fun _ =>
  TransportResult.response 503 (some "id-503")
    (Body.json (some "ServiceUnavailable") none)

/-- Transport environment answering every attempt with a 400
"BadDeviceToken" response. -/
def envBadToken : Nat → TransportResult := fun _ =>
  TransportResult.response 400 (some "id-400")
    (Body.json (some "BadDeviceToken") none)

/-- Transport environment answering every attempt with a transport error. -/
def envReqError : Nat → TransportResult := fun _ =>
  TransportResult.requestError

/-- Transport environment answering every attempt with a 410 "Unregistered"
response carrying a timestamp. -/
def envUnreg : Nat → TransportResult := fun _ =>
  TransportResult.response 410 (some "id-410")
    (Body.json (some "Unregistered") (some 1609459200))

/-- Transport environment answering every attempt with a 400 response whose
reason has no classification in the exceptions module. -/
def envUnknownReason : Nat → TransportResult := fun _ =>
  TransportResult.response 400 (some "id-unk")
    (Body.json (some "SomeFutureReason") none)

/-- Transport environment answering every attempt with a 400 response whose
body is not valid JSON. -/
def envInvalidJson : Nat → TransportResult := fun _ =>
  TransportResult.response 400 none Body.invalidJson

/-- Transport environment answering every attempt with a 200 response. -/
def env200 : Nat → TransportResult := fun _ =>
  TransportResult.response 200 (some "id-200") Body.invalidJson

/-- Constant key-file content used by concrete construction scenarios. -/
def constKey : String → String := fun _ => "SECRET-KEY"

/- Helper lemmas shared by the claim theorems. -/

/-- Unfolding of `respExcOf` back to the `_push` outcome. -/
theorem respExcOf_outcome {r : TransportResult} {e : APNSExc}
    (h : respExcOf r = some e) : outcomeOf r = Outcome.exc e := by
  unfold respExcOf at h
  cases ho : outcomeOf r
  case success => rw [ho] at h; simp at h
  case pyErr n => rw [ho] at h; simp at h
  case exc e2 =>
    rw [ho] at h
    simp at h
    rw [h]

/-- Characterisation of a server-failure transport result. -/
theorem isServerFailure_iff (r : TransportResult) :
    IsServerFailure r = true ↔
      ∃ e, respExcOf r = some e ∧ e.isServer = true := by
  unfold IsServerFailure
  cases h : respExcOf r <;> simp

/-- Reduction of `outcomeOf` on a transport error. -/
theorem outcomeOf_requestError :
    outcomeOf TransportResult.requestError =
      Outcome.exc APNSExc.connection := rfl

/-- Reduction of the retry classification on the connectivity exception. -/
theorem isServer_connection : APNSExc.connection.isServer = false := rfl

/-- Classification of a contract-obeying response: success, or a typed
reason-keyed exception. -/
theorem outcomeOf_wf (r : TransportResult) (h : WellFormedResp r) :
    outcomeOf r = Outcome.success ∨
    ∃ cls reason code apnsId tsf,
      outcomeOf r = Outcome.exc
        (APNSExc.response cls reason code apnsId tsf) := by
  obtain ⟨code, apnsId, body, rfl, hbody⟩ := h
  by_cases hcode : code = 200
  · left
    simp [outcomeOf, hcode]
  · right
    obtain ⟨reason, ts, cls, rfl, hcls, hts⟩ := hbody hcode
    cases hu : cls.isUnregistered
    · exact ⟨cls, reason, code, apnsId, none,
        by simp [outcomeOf, hcode, hcls, hu]⟩
    · obtain ⟨t, rfl⟩ := hts hu
      exact ⟨cls, reason, code, apnsId, some t,
        by simp [outcomeOf, hcode, hcls, hu]⟩

/-- Claim C9: `close()` is idempotent — it never fails (it is total), it
clears both the connection storage and the cached token value and issue
time, and running it twice leaves the same state as running it once. -/
theorem close_idempotent (s : ClientState) :
    (close s).client_storage = none ∧
    (close s).auth_token_storage = none ∧
    (close s).auth_token_time = none ∧
    close (close s) = close s := by
  simp [close, resetClient, resetAuthToken]

/-- Claim C6: under a well-formed token cache, the cached token is reused
(and the state left untouched, so regeneration is lazy only) while
`now < issued_at + AUTH_TOKEN_LIFETIME`; a new token with issue time `now`
is minted when the cache is empty or `now - issued_at ≥` the lifetime; and
the cached value changes exactly under that condition. -/
theorem auth_token_cache (now : Nat) (s : ClientState) (hwf : TokenWF s) :
    (∀ tok t, s.auth_token_storage = some tok → s.auth_token_time = some t →
      now < t + AUTH_TOKEN_LIFETIME → authToken now s = (tok, s)) ∧
    ((s.auth_token_storage = none ∨
        ∃ t, s.auth_token_time = some t ∧ t + AUTH_TOKEN_LIFETIME ≤ now) →
      authToken now s =
        ({ iss := s.team_id, iat := now },
         { s with auth_token_time := some now,
                  auth_token_storage :=
                    some { iss := s.team_id, iat := now } })) ∧
    ((authToken now s).2.auth_token_storage ≠ s.auth_token_storage ↔
      (s.auth_token_storage = none ∨
        ∃ t, s.auth_token_time = some t ∧ t + AUTH_TOKEN_LIFETIME ≤ now)) := by
  obtain ⟨hiff, hiat⟩ := hwf
  have hL : 0 < AUTH_TOKEN_LIFETIME := by decide
  refine ⟨?_, ?_, ?_⟩
  · intro tok t htok htime hlt
    have hx : ¬ (t + AUTH_TOKEN_LIFETIME ≤ now) := by omega
    simp [authToken, htok, isAuthTokenExpired, htime, hx]
  · intro hcond
    cases hst : s.auth_token_storage with
    | none => simp [authToken, hst, mintToken]
    | some tok =>
      have hs : s.auth_token_time.isSome := by
        rw [← hiff, hst]; simp
      obtain ⟨t, htime⟩ := Option.isSome_iff_exists.mp hs
      rcases hcond with hnone | ⟨t2, htime2, hle⟩
      · rw [hst] at hnone; cases hnone
      · have ht2 : t2 = t := by
          rw [htime] at htime2
          exact (Option.some_inj.mp htime2).symm
        subst ht2
        have hexp : isAuthTokenExpired now s = true := by
          simp [isAuthTokenExpired, htime, hle]
        simp [authToken, hst, hexp, mintToken]
  · cases hst : s.auth_token_storage with
    | none =>
      have hmint : authToken now s = mintToken now s := by
        simp [authToken, hst]
      constructor
      · intro _
        exact Or.inl rfl
      · intro _
        rw [hmint]
        simp [mintToken]
    | some tok =>
      have hs : s.auth_token_time.isSome := by
        rw [← hiff, hst]; simp
      obtain ⟨t, htime⟩ := Option.isSome_iff_exists.mp hs
      have htiat : tok.iat = t := hiat tok t hst htime
      by_cases hle : t + AUTH_TOKEN_LIFETIME ≤ now
      · have hexp : isAuthTokenExpired now s = true := by
          simp [isAuthTokenExpired, htime, hle]
        have hmint : authToken now s = mintToken now s := by
          simp [authToken, hst, hexp]
        constructor
        · intro _
          exact Or.inr ⟨t, htime, hle⟩
        · intro _
          rw [hmint]
          simp [mintToken]
          intro hcontra
          have : tok.iat = now := by rw [← hcontra]
          omega
      · have hexp : isAuthTokenExpired now s = false := by
          simp [isAuthTokenExpired, htime, hle]
        have hsame : authToken now s = (tok, s) := by
          simp [authToken, hst, hexp]
        constructor
        · intro hx
          rw [hsame] at hx
          exact absurd hst hx
        · intro hx
          rcases hx with hnone | ⟨t2, htime2, hle2⟩
          · cases hnone
          · have ht2 : t2 = t := by
              rw [htime] at htime2
              exact (Option.some_inj.mp htime2).symm
            subst ht2
            exact absurd hle2 hle

/-- Claim C5, counterexample: a configuration with BOTH auth mechanisms
fully specified (all three token fields and both certificate fields) does
not raise the configuration error — construction succeeds and selects token
auth — contradicting the claimed XOR invariant. -/
theorem mixed_auth_config_succeeds :
    clientInit constKey (some "auth_key.p8") (some "KEYID123")
      (some "TEAMID456") (some "client_cert.pem") (some "passphrase") =
      Except.ok "jwt" := by
  rfl

/-- Claim C5, amended: construction succeeds iff AT LEAST ONE auth
mechanism is fully specified (the read auth key, key id and team id all
truthy, OR both certificate fields truthy); when the token mechanism is
fully specified it wins (token auth is selected even if certificate fields
are also present); otherwise the configuration error is raised. -/
theorem client_init_auth_validation (rf : String → String)
    (ak kid tid cp cpp : Option String) :
    ((∃ t, clientInit rf ak kid tid cp cpp = Except.ok t) ↔
      ((truthy (mkAuthKey rf ak) && truthy kid && truthy tid) = true ∨
        (truthy cp && truthy cpp) = true)) ∧
    ((truthy (mkAuthKey rf ak) && truthy kid && truthy tid) = true →
      clientInit rf ak kid tid cp cpp = Except.ok "jwt") ∧
    (((truthy (mkAuthKey rf ak) && truthy kid && truthy tid) = false ∧
        (truthy cp && truthy cpp) = false) →
      clientInit rf ak kid tid cp cpp =
        Except.error
          "Either the auth key or the client cert must be provided.") := by
  unfold clientInit mkAuthType
  constructor
  · constructor
    · intro ⟨t, ht⟩
      by_cases h1 : (truthy (mkAuthKey rf ak) && truthy kid && truthy tid) =
          true
      · exact Or.inl h1
      · by_cases h2 : (truthy cp && truthy cpp) = true
        · exact Or.inr h2
        · simp [h1, h2] at ht
    · intro h
      rcases h with h1 | h2
      · exact ⟨"jwt", by simp [h1]⟩
      · by_cases h1 : (truthy (mkAuthKey rf ak) && truthy kid && truthy tid)
            = true
        · exact ⟨"jwt", by simp [h1]⟩
        · exact ⟨"cert", by simp [h1, h2]⟩
  · constructor
    · intro h1
      simp [h1]
    · intro ⟨h1, h2⟩
      simp [h1, h2]

/-- Claim C5, amended, witness: the fully-token configuration with no
certificate fields succeeds with token auth. -/
theorem client_init_auth_validation_witness :
    clientInit constKey (some "auth_key.p8") (some "KEYID123")
      (some "TEAMID456") none none = Except.ok "jwt" :=
  (client_init_auth_validation constKey (some "auth_key.p8")
    (some "KEYID123") (some "TEAMID456") none none).2.1 (by decide)

/-- Claim C6, witness: at `now = 5000` a cache minted at time 0 is expired
(5000 ≥ 2700), so the token is regenerated with issue time 5000. -/
theorem auth_token_cache_witness :
    authToken 5000
        { team_id := some "TEAMID", auth_token_time := some 0,
          auth_token_storage := some { iss := some "TEAMID", iat := 0 },
          client_storage := none, next_conn_id := 0 } =
      ({ iss := some "TEAMID", iat := 5000 },
       { team_id := some "TEAMID", auth_token_time := some 5000,
         auth_token_storage := some { iss := some "TEAMID", iat := 5000 },
         client_storage := none, next_conn_id := 0 }) :=
  (auth_token_cache 5000
      { team_id := some "TEAMID", auth_token_time := some 0,
        auth_token_storage := some { iss := some "TEAMID", iat := 0 },
        client_storage := none, next_conn_id := 0 }
      ⟨by decide, by
        intro tok t h1 h2
        cases h1
        cases h2
        rfl⟩).2.1
    (Or.inr ⟨0, rfl, by decide⟩)

/-- Claim C7: when the first attempt's response has status 200, `push`
returns success (no exception raised) after exactly one attempt. -/
theorem push_success_one_attempt (env : Nat → TransportResult)
    (s : ClientState) (apnsId : Option String) (body : Body)
    (h0 : env 0 = TransportResult.response 200 apnsId body) :
    (push env s).outcome = PushOutcome.ok ∧ (push env s).attempts = 1 := by
  simp [push, pushLoop, h0, outcomeOf]

/-- Claim C7, witness: a 200 response on a fresh client gives a successful
single-attempt push. -/
theorem push_success_one_attempt_witness :
    (push env200 state0).outcome = PushOutcome.ok ∧
    (push env200 state0).attempts = 1 :=
  push_success_one_attempt env200 state0 (some "id-200") Body.invalidJson
    rfl

/-- Claim C2: a first attempt answered by a non-200 response whose reason
classifies to a client-side (non-server) exception makes `push` perform
exactly 1 attempt and raise that exception at once; the connection (here:
an existing one) is not torn down — the final state is the starting state,
connection storage included. -/
theorem push_client_failure_no_retry (env : Nat → TransportResult)
    (s : ClientState) (code : Nat) (apnsId : Option String) (reason : String)
    (ts : Option Int) (cls : ExcClass) (c : Nat)
    (h0 : env 0 =
      TransportResult.response code apnsId (Body.json (some reason) ts))
    (hcode : code ≠ 200)
    (hcls : getExceptionClass reason = some cls)
    (hserver : cls.isServer = false)
    (hts : cls.isUnregistered = true → ∃ t, ts = some t)
    (hconn : s.client_storage = some c) :
    (push env s).attempts = 1 ∧
    (push env s).outcome = PushOutcome.raised
      (APNSExc.response cls reason code apnsId
        (if cls.isUnregistered then ts else none)) ∧
    (push env s).final = s ∧
    (push env s).conns = [c] := by
  have hout : outcomeOf (env 0) = Outcome.exc
      (APNSExc.response cls reason code apnsId
        (if cls.isUnregistered then ts else none)) := by
    cases hu : cls.isUnregistered
    · simp [outcomeOf, h0, hcode, hcls, hu]
    · obtain ⟨t, ht⟩ := hts hu
      subst ht
      simp [outcomeOf, h0, hcode, hcls, hu]
  simp [push, pushLoop, hout, APNSExc.isServer, hserver, getClient, hconn]

/-- Claim C2, witness: a "BadDeviceToken" 400 response on a client with a
live connection raises after one attempt and leaves the state intact. -/
theorem push_client_failure_no_retry_witness :
    (push envBadToken state1).attempts = 1 ∧
    (push envBadToken state1).outcome = PushOutcome.raised
      (APNSExc.response { isServer := false, isUnregistered := false }
        "BadDeviceToken" 400 (some "id-400")
        (if ExcClass.isUnregistered
            { isServer := false, isUnregistered := false } then none
         else none)) ∧
    (push envBadToken state1).final = state1 ∧
    (push envBadToken state1).conns = [0] :=
  push_client_failure_no_retry envBadToken state1 400 (some "id-400")
    "BadDeviceToken" none { isServer := false, isUnregistered := false } 0
    rfl (by decide) (by decide) (by decide) (by intro h; simp at h) rfl

/-- Claim C3: an attempt whose transport raises a request error makes `push`
raise the connectivity exception at once — whichever attempt it is (any
earlier attempts having been retryable server failures), the send is not
retried afterwards, so the attempt count stops right there. -/
theorem push_transport_error_immediate (env : Nat → TransportResult)
    (s : ClientState) (i : Nat) (hi : i < 3)
    (hprev : ∀ j, j < i → IsServerFailure (env j) = true)
    (herr : env i = TransportResult.requestError) :
    (push env s).outcome = PushOutcome.raised APNSExc.connection ∧
    (push env s).attempts = i + 1 := by
  interval_cases i
  · simp [push, pushLoop, herr, outcomeOf_requestError, isServer_connection]
  · obtain ⟨e0, he0, hs0⟩ :=
      (isServerFailure_iff (env 0)).mp (hprev 0 (by omega))
    have ho0 := respExcOf_outcome he0
    simp [push, pushLoop, ho0, hs0, herr, outcomeOf_requestError,
      isServer_connection]
  · obtain ⟨e0, he0, hs0⟩ :=
      (isServerFailure_iff (env 0)).mp (hprev 0 (by omega))
    obtain ⟨e1, he1, hs1⟩ :=
      (isServerFailure_iff (env 1)).mp (hprev 1 (by omega))
    have ho0 := respExcOf_outcome he0
    have ho1 := respExcOf_outcome he1
    simp [push, pushLoop, ho0, hs0, ho1, hs1, herr, outcomeOf_requestError,
      isServer_connection]

/-- Claim C3, witness: a transport error on the very first attempt raises
the connectivity exception after exactly one attempt. -/
theorem push_transport_error_immediate_witness :
    (push envReqError state0).outcome =
      PushOutcome.raised APNSExc.connection ∧
    (push envReqError state0).attempts = 0 + 1 :=
  push_transport_error_immediate envReqError state0 0 (by omega)
    (by intro j hj; exact absurd hj (Nat.not_lt_zero j)) rfl

/-- Claim C4: a non-200 response with reason "Unregistered" and a timestamp
makes `push` raise the unregistered exception carrying that timestamp; a
non-200 response whose reason has no classification makes the
unimplemented-mapping error (`NotImplementedError`) escape `push` —
it is not caught by the retry loop and not silently swallowed. -/
theorem push_reason_classification :
    (∀ (env : Nat → TransportResult) (s : ClientState) (code : Nat)
        (apnsId : Option String) (t : Int),
      env 0 = TransportResult.response code apnsId
          (Body.json (some "Unregistered") (some t)) →
      code ≠ 200 →
      (push env s).outcome = PushOutcome.raised
          (APNSExc.response { isServer := false, isUnregistered := true }
            "Unregistered" code apnsId (some t)) ∧
      (push env s).attempts = 1) ∧
    (∀ (env : Nat → TransportResult) (s : ClientState) (code : Nat)
        (apnsId : Option String) (reason : String) (ts : Option Int),
      env 0 =
        TransportResult.response code apnsId (Body.json (some reason) ts) →
      code ≠ 200 →
      getExceptionClass reason = none →
      (push env s).outcome = PushOutcome.error "NotImplementedError" ∧
      (push env s).attempts = 1) := by
  constructor
  · intro env s code apnsId t h0 hcode
    have hcls : getExceptionClass "Unregistered" =
        some { isServer := false, isUnregistered := true } := by decide
    have hout : outcomeOf (env 0) = Outcome.exc
        (APNSExc.response { isServer := false, isUnregistered := true }
          "Unregistered" code apnsId (some t)) := by
      simp [outcomeOf, h0, hcode, hcls]
    simp [push, pushLoop, hout, APNSExc.isServer]
  · intro env s code apnsId reason ts h0 hcode hcls
    have hout : outcomeOf (env 0) = Outcome.pyErr "NotImplementedError" := by
      simp [outcomeOf, h0, hcode, hcls]
    simp [push, pushLoop, hout]

/-- Claim C4, witness: a 410 "Unregistered" response with timestamp
1609459200 raises the unregistered exception carrying it, and an unknown
reason string escapes as `NotImplementedError`. -/
theorem push_reason_classification_witness :
    ((push envUnreg state0).outcome = PushOutcome.raised
        (APNSExc.response { isServer := false, isUnregistered := true }
          "Unregistered" 410 (some "id-410") (some 1609459200)) ∧
      (push envUnreg state0).attempts = 1) ∧
    ((push envUnknownReason state0).outcome =
        PushOutcome.error "NotImplementedError" ∧
      (push envUnknownReason state0).attempts = 1) :=
  ⟨push_reason_classification.1 envUnreg state0 410 (some "id-410")
      1609459200 rfl (by decide),
   push_reason_classification.2 envUnknownReason state0 400 (some "id-unk")
      "SomeFutureReason" none rfl (by decide) (by decide)⟩

/-- Claim C1: when all three attempts are answered by responses classifying
to server-side exceptions, `push` performs exactly 3 attempts, every attempt
uses a distinct connection (the one stored at entry is torn down after each
failure and a fresh one created — under the allocator invariant the three
connection identities are pairwise distinct, hence `Nodup`), the connection
is also torn down after the last attempt, and the exception classified from
the third attempt's response is raised. -/
theorem push_server_failures_exhaust_retries (env : Nat → TransportResult)
    (s : ClientState)
    (h0 : IsServerFailure (env 0) = true)
    (h1 : IsServerFailure (env 1) = true)
    (h2 : IsServerFailure (env 2) = true)
    (hwf : ConnWF s) :
    (push env s).attempts = 3 ∧
    (push env s).final.client_storage = none ∧
    (push env s).conns.Nodup ∧
    ∀ e, respExcOf (env 2) = some e →
      (push env s).outcome = PushOutcome.raised e := by
  obtain ⟨e0, he0, hs0⟩ := (isServerFailure_iff (env 0)).mp h0
  obtain ⟨e1, he1, hs1⟩ := (isServerFailure_iff (env 1)).mp h1
  obtain ⟨e2, he2, hs2⟩ := (isServerFailure_iff (env 2)).mp h2
  have ho0 := respExcOf_outcome he0
  have ho1 := respExcOf_outcome he1
  have ho2 := respExcOf_outcome he2
  cases hc : s.client_storage with
  | some c =>
    have hlt : c < s.next_conn_id := hwf c hc
    refine ⟨?_, ?_, ?_, ?_⟩
    · simp [push, pushLoop, ho0, ho1, ho2, hs0, hs1, hs2, getClient,
        resetClient, hc]
    · simp [push, pushLoop, ho0, ho1, ho2, hs0, hs1, hs2, getClient,
        resetClient, hc]
    · simp [push, pushLoop, ho0, ho1, ho2, hs0, hs1, hs2, getClient,
        resetClient, hc]
      omega
    · intro e he
      have hee : e = e2 := by
        rw [he2] at he
        exact (Option.some_inj.mp he).symm
      subst hee
      simp [push, pushLoop, ho0, ho1, ho2, hs0, hs1, hs2, getClient,
        resetClient, hc]
  | none =>
    refine ⟨?_, ?_, ?_, ?_⟩
    · simp [push, pushLoop, ho0, ho1, ho2, hs0, hs1, hs2, getClient,
        resetClient, hc]
    · simp [push, pushLoop, ho0, ho1, ho2, hs0, hs1, hs2, getClient,
        resetClient, hc]
    · simp [push, pushLoop, ho0, ho1, ho2, hs0, hs1, hs2, getClient,
        resetClient, hc]
      omega
    · intro e he
      have hee : e = e2 := by
        rw [he2] at he
        exact (Option.some_inj.mp he).symm
      subst hee
      simp [push, pushLoop, ho0, ho1, ho2, hs0, hs1, hs2, getClient,
        resetClient, hc]

/-- Claim C1, witness: three "ServiceUnavailable" 503 responses on a client
holding connection 0 give 3 attempts on pairwise-distinct connections and
raise the exception of the third response. -/
theorem push_server_failures_exhaust_retries_witness :
    (push env503 state1).attempts = 3 ∧
    (push env503 state1).final.client_storage = none ∧
    (push env503 state1).conns.Nodup ∧
    ∀ e, respExcOf (env503 2) = some e →
      (push env503 state1).outcome = PushOutcome.raised e :=
  push_server_failures_exhaust_retries env503 state1 (by decide) (by decide)
    (by decide)
    (by intro c hc; simp [state1] at hc ⊢; omega)

/-- Claim C8, counterexample: a non-200 response whose body is not valid
JSON makes the `json.loads` failure escape `push` as an unclassified error
(no typed exception category, no status code, no correlation id), so the
claim's "any body" universality fails on the code. -/
theorem push_invalid_body_escapes_unclassified :
    (push envInvalidJson state0).outcome =
      PushOutcome.error "JSONDecodeError" := by
  decide

/-- Claim C8, amended: for every run in which each attempt's transport
result is an actual response obeying the response contract (non-200 bodies
are JSON with a classified reason and, for the unregistered class, a
timestamp), `push` either succeeds or raises a typed reason-keyed exception
carrying the status code, the `apns-id` correlation id and the optional
timestamp — nothing escapes unclassified and nothing is swallowed. -/
theorem push_failures_typed (env : Nat → TransportResult) (s : ClientState)
    (h : ∀ i, WellFormedResp (env i)) :
    (push env s).outcome = PushOutcome.ok ∨
    ∃ cls reason code apnsId tsf,
      (push env s).outcome = PushOutcome.raised
        (APNSExc.response cls reason code apnsId tsf) := by
  rcases outcomeOf_wf (env 0) (h 0) with ho0 | ⟨cls0, r0, c0, a0, t0, ho0⟩
  · left
    simp [push, pushLoop, ho0]
  · cases hs0 : cls0.isServer
    · right
      exact ⟨cls0, r0, c0, a0, t0,
        by simp [push, pushLoop, ho0, APNSExc.isServer, hs0]⟩
    · rcases outcomeOf_wf (env 1) (h 1) with ho1 | ⟨cls1, r1, c1, a1, t1, ho1⟩
      · left
        simp [push, pushLoop, ho0, ho1, APNSExc.isServer, hs0]
      · cases hs1 : cls1.isServer
        · right
          exact ⟨cls1, r1, c1, a1, t1,
            by simp [push, pushLoop, ho0, ho1, APNSExc.isServer, hs0, hs1]⟩
        · rcases outcomeOf_wf (env 2) (h 2) with ho2 |
            ⟨cls2, r2, c2, a2, t2, ho2⟩
          · left
            simp [push, pushLoop, ho0, ho1, ho2, APNSExc.isServer, hs0, hs1]
          · cases hs2 : cls2.isServer
            · right
              exact ⟨cls2, r2, c2, a2, t2,
                by simp [push, pushLoop, ho0, ho1, ho2, APNSExc.isServer,
                  hs0, hs1, hs2]⟩
            · right
              exact ⟨cls2, r2, c2, a2, t2,
                by simp [push, pushLoop, ho0, ho1, ho2, APNSExc.isServer,
                  hs0, hs1, hs2]⟩

/-- Claim C8, amended, witness: with contract-obeying 200 responses the
push succeeds (left disjunct). -/
theorem push_failures_typed_witness :
    (push env200 state0).outcome = PushOutcome.ok ∨
    ∃ cls reason code apnsId tsf,
      (push env200 state0).outcome = PushOutcome.raised
        (APNSExc.response cls reason code apnsId tsf) :=
  push_failures_typed env200 state0
    (by
      intro i
      exact ⟨200, some "id-200", Body.invalidJson, rfl,
        fun hc => absurd rfl hc⟩)

end PyapnsClient
